import Mathlib

/-
Verification of the batch_cellranger pipeline orchestration module
(scab/utilities/batch_cellranger.py): a shallow embedding of its
entity model (Config, Run, Sample, Library), the run-acquisition state
machine, the manifest builders and the aggregation stage, together
with theorems settling the specified properties.
-/

namespace BatchCellranger

/-! ### Python-level helpers -/

/-- Embedding of the two-argument form of os.path.join as used in the
module: if the second component is absolute it wins; otherwise the
components are joined with a single slash separator. -/
def osPathJoin (a b : String) : String :=
  if b.data.head? = some '/' then b
  else if a = "" then b
  else if a.data.getLast? = some '/' then a ++ b
  else a ++ "/" ++ b

/-- Embedding of the Python str.endswith predicate: the suffix
argument is a suffix of the string (as a character sequence). -/
def pyEndsWith (s suffix : String) : Prop :=
  suffix.data <:+ s.data

instance (s suffix : String) : Decidable (pyEndsWith s suffix) :=
  inferInstanceAs (Decidable (suffix.data <:+ s.data))

/-- Embedding of os.path.basename: the part of the path after the
last slash. -/
def pyBasename (p : String) : String :=
  String.mk ((p.data.reverse.takeWhile (fun c => c ≠ '/')).reverse)

/-- Concatenation of a list of strings, in order. -/
def strConcat (l : List String) : String :=
  l.foldr (fun a b => a ++ b) ""

/-- A dynamically typed Python value as it occurs in the reference
fields of this module: either a string (a reference path) or a
dict from sample names to reference paths. -/
inductive PyVal where
  | str (s : String)
  | dict (m : List (String × String))
deriving DecidableEq

/-- Embedding of Python str() as applied by an f-string to the
values above: a string formats as itself and a dict of strings
formats as its repr. -/
def pyStr : PyVal → String
  | .str s => s
  | .dict m =>
      "\x7b" ++
        String.intercalate ", "
          (m.map (fun kv => "\x27" ++ kv.1 ++ "\x27: \x27" ++ kv.2 ++ "\x27")) ++
      "\x7d"

/-- Python exceptions raised by the embedded code paths. -/
inductive PyError where
  | attributeError (attr : String)
  | typeError (msg : String)
deriving DecidableEq

/-! ### Library -/

/-- Embedding of the Library class: a name, a library type tag, and
the lazily initialised accumulator of fastq paths (the instance
attribute underscore-fastq-paths, None until first touched). -/
structure Library where
  name : String
  type : String
  fastqPathsCache : Option (List String)
deriving DecidableEq

/-- Embedding of the Library.fastq_paths property: returns the cached
list, initialising it to the empty list on first access.  The
initialisation only installs the empty list, so the returned value is
always the cache contents with empty-list fallback. -/
def Library.fastq_paths (l : Library) : List String :=
  l.fastqPathsCache.getD []

/-- The attribute names that a Library instance resolves: the three
instance attributes set in Library.init plus the class-level property
and method. -/
def libraryAttrNames : List String :=
  ["name", "type", "_fastq_paths", "fastq_paths", "add_fastq_path"]

/-- Embedding of Library.add_fastq_path.  The body is a single
statement appending the absolutised path to the attribute named
fastq_path (singular).  That name is not among the attributes the
Library class defines (libraryAttrNames), so under Python attribute
lookup the statement raises AttributeError; the then-branch below is
the append the body would perform if the attribute resolved to the
accumulator. -/
def Library.add_fastq_path (abspath : String → String) (l : Library)
    (fastq_path : String) : Except PyError Library :=
  if libraryAttrNames.contains "fastq_path" then
    .ok { l with fastqPathsCache := some (l.fastq_paths ++ [abspath fastq_path]) }
  else
    .error (.attributeError "fastq_path")

/-! ### Sample -/

/-- Embedding of the Sample class: name, the three reference fields
exactly as passed to Sample.init (dynamically typed, absent = None),
the library-type-to-library-name mapping, the lazily initialised
library list cache (underscore-libraries), and the aggregation path
attribute attached dynamically by main. -/
structure Sample where
  name : String
  gex_reference : Option PyVal
  vdj_reference : Option PyVal
  feature_reference : Option PyVal
  library_dict : List (String × String)
  librariesCache : Option (List Library)
  aggr_path : Option String
deriving DecidableEq

/-- Embedding of the Sample.libraries property: on first access, build
one Library per (library-type, library-name) entry of the library dict
and cache the list; afterwards return the cache.  Returns the value
together with the updated object state. -/
def Sample.librariesProp (s : Sample) : List Library × Sample :=
  match s.librariesCache with
  | some ls => (ls, s)
  | none =>
      let ls := s.library_dict.map
        (fun p => { name := p.2, type := p.1, fastqPathsCache := none })
      (ls, { s with librariesCache := some ls })

/-- The library list the Sample.libraries property evaluates to:
the cache if present, otherwise one fresh Library per library-dict
entry. -/
def Sample.effLibraries (s : Sample) : List Library :=
  match s.librariesCache with
  | some ls => ls
  | none =>
      s.library_dict.map
        (fun p => { name := p.2, type := p.1, fastqPathsCache := none })

/-- Embedding of Sample.build_config_csv: accumulate the manifest
text section by section (each reference section only when the
corresponding reference field is not None), then the libraries header
and one row per (library, fastq path) pair; the Sample.libraries
property access may fill the library cache, so the updated sample is
returned alongside the text. -/
def Sample.build_config_csv (s : Sample) : String × Sample :=
  let config := ""
  let config := config ++ (match s.gex_reference with
    | some v => "[gene-expression]\n" ++ "reference," ++ pyStr v ++ "\n\n"
    | none => "")
  let config := config ++ (match s.vdj_reference with
    | some v => "[vdj]\n" ++ "reference," ++ pyStr v ++ "\n\n"
    | none => "")
  let config := config ++ (match s.feature_reference with
    | some v => "[feature]\n" ++ "reference," ++ pyStr v ++ "\n\n"
    | none => "")
  let pair := Sample.librariesProp s
  let config := config ++ "[libraries]\n"
  let config := config ++ "fastq_id,fastqs,feature_types\n"
  let config := pair.1.foldl
    (fun cfg l =>
      (Library.fastq_paths l).foldl
        (fun cfg2 fq => cfg2 ++ (l.name ++ "," ++ fq ++ "," ++ l.type ++ "\n"))
        cfg)
    config
  (config, pair.2)

/-! ### Manifest specification (from the words of the spec) -/

/-- Spec-side description of one optional reference section: present
exactly when the reference is set, consisting of the bracketed header
line and a reference line. -/
def specRefSection (header : String) (ref : Option PyVal) : String :=
  match ref with
  | some v => "[" ++ header ++ "]\n" ++ "reference," ++ pyStr v ++ "\n\n"
  | none => ""

/-- Spec-side description of the data rows contributed by one
library: one row (library-name, read-file-path, library-type) per
accumulated fastq path. -/
def Library.specRows (l : Library) : String :=
  strConcat ((Library.fastq_paths l).map
    (fun fq => l.name ++ "," ++ fq ++ "," ++ l.type ++ "\n"))

/-- Spec-side manifest, following the specification text: the
gene-expression, vdj and feature sections in this fixed order, each
present exactly when the corresponding reference is set, then the
libraries section with its fixed header row followed by exactly one
data row per (library, accumulated fastq path) pair. -/
def manifestSpec (s : Sample) : String :=
  specRefSection "gene-expression" s.gex_reference ++
  specRefSection "vdj" s.vdj_reference ++
  specRefSection "feature" s.feature_reference ++
  "[libraries]\n" ++ "fastq_id,fastqs,feature_types\n" ++
  strConcat ((Sample.effLibraries s).map Library.specRows)

/-! ### Sample identity -/

/-- A Sample object with an explicit object identity, modelling a
CPython object: `oid` stands for the object identity `id()`. -/
structure SampleObj where
  oid : Nat
  sample : Sample
deriving DecidableEq

/-- A stand-in for the process-fixed pure string hash used by
hash() on str: only its functional dependence on the string
matters for the theorems below. -/
def pyStrHash (s : String) : Nat :=
  s.data.foldl (fun h c => h * 131 + c.toNat) 5381

/-- Embedding of Sample.hash, whose body is hash(self.name). -/
def sampleObjHash (o : SampleObj) : Nat :=
  pyStrHash o.sample.name

/-- Embedding of `==` between two Sample objects.  The Sample class
defines no equality method (only hashing and less-than), so Python
equality falls back to the default object identity comparison. -/
def sampleObjEq (a b : SampleObj) : Bool :=
  a.oid == b.oid

/-! ### Decompression dispatch -/

/-- The extraction command selected by Run.decompress. -/
inductive ExtractCmd where
  | tarGz (source destination : String)
  | tarPlain (source destination : String)
  | unzip (source destination : String)
deriving DecidableEq

/-- The fatal error message printed by Run.decompress before the
process exits on an unsupported archive extension. -/
def unsupportedMsg (source : String) : String :=
  "ERROR: input file " ++ source ++ " has an unsupported compression type. " ++
  "Only files with .tar, .tar.gz, .tgz or .zip extensions are supported."

/-- Embedding of the dispatch in Run.decompress: the source name
ending .tar.gz or .tgz selects gzip-tar extraction, ending .tar
selects plain tar extraction, ending .zip selects zip extraction, and
any other name produces the fatal unsupported-format error (the code
prints the message and exits the process) with no extraction command
selected. -/
def selectExtraction (source destination : String) : Except String ExtractCmd :=
  if pyEndsWith source ".tar.gz" ∨ pyEndsWith source ".tgz" then
    .ok (.tarGz source destination)
  else if pyEndsWith source ".tar" then
    .ok (.tarPlain source destination)
  else if pyEndsWith source ".zip" then
    .ok (.unzip source destination)
  else
    .error (unsupportedMsg source)

/-! ### Run and the acquisition state machine -/

/-- Embedding of the Run class state relevant to acquisition. -/
structure Run where
  name : String
  url : Option String
  path : Option String
  is_compressed : Bool
  samplesheet : Option String
  simple_csv : Option String
  copy_to_project : Bool
  fastq_path : Option String
deriving DecidableEq

/-- An external acquisition action triggered by Run.get: a recursive
directory copy, a download, or an archive decompression. -/
inductive AcqAction where
  | copy (source destination : String)
  | download (url destination : String)
  | decompress (source destination : String)
deriving DecidableEq

/-- The filesystem environment the acquisition step runs in:
path absolutisation and the walk that looks for the subdirectory
holding the sequencer-completion marker RTAComplete.txt. -/
structure AcqEnv where
  abspath : String → String
  markerDir : String → Option String

/-- Embedding of Run.download: the downloaded file lands in the
destination directory under the basename of the url. -/
def Run.download (env : AcqEnv) (url destination : String) : String :=
  osPathJoin (env.abspath destination) (pyBasename url)

/-- Embedding of Run.decompress: absolutise source and destination,
dispatch on the source extension (fatal error on an unsupported one),
then resolve the run directory to the walked subdirectory holding the
completion marker, falling back to the extraction destination. -/
def Run.decompress (env : AcqEnv) (source destination : String) :
    Except String (String × AcqAction) :=
  let source := env.abspath source
  let destination := env.abspath destination
  match selectExtraction source destination with
  | .error e => .error e
  | .ok _ =>
      let run_dir := (env.markerDir destination).getD destination
      .ok (run_dir, AcqAction.decompress source destination)

/-- Embedding of Run.get: compute the per-run destination below the
raw directory, then (in order) copy when a local path is set with
copy-to-project on an uncompressed run, download when a url is set,
and decompress when the compressed flag is set — each branch guarded
only by the configured flags, which the method never clears.  Returns
the updated run and the acquisition actions triggered, or the fatal
error from decompression (a missing path reaching decompression is
the Python TypeError from absolutising None). -/
def Run.get (env : AcqEnv) (r : Run) (raw_dir : String) :
    Except String (Run × List AcqAction) :=
  let destination := osPathJoin (env.abspath raw_dir) r.name
  let step1 :=
    if r.path.isSome && r.copy_to_project && !r.is_compressed then
      ({ r with path := some destination },
        [AcqAction.copy (r.path.getD "") destination])
    else (r, ([] : List AcqAction))
  let step2 :=
    match step1.1.url with
    | some u =>
        ({ step1.1 with path := some (Run.download env u destination) },
          step1.2 ++ [AcqAction.download u destination])
    | none => step1
  if step2.1.is_compressed then
    match step2.1.path with
    | none => .error "TypeError: expected str, bytes or os.PathLike object, not NoneType"
    | some p =>
        match Run.decompress env p destination with
        | .error e => .error e
        | .ok (run_dir, act) =>
            .ok ({ step2.1 with path := some run_dir }, step2.2 ++ [act])
  else
    .ok step2

/-! ### Config parsing -/

/-- The per-run entry of the configuration document, with every key
optional exactly as the code reads it (config.get, or a guarded
subscript). -/
structure RunCfg where
  url : Option String
  path : Option String
  is_compressed : Option Bool
  samplesheet : Option String
  simple_csv : Option String
  copy_to_project : Option Bool
deriving DecidableEq

/-- Embedding of Run.init from one (name, config) entry: url via get,
path/samplesheet/simple-csv absolutised when present, compressed flag
defaulting to True, copy-to-project defaulting to False, and the
derived fastq path unset. -/
def Run.ofConfig (abspath : String → String) (name : String) (cfg : RunCfg) : Run :=
  { name := name
    url := cfg.url
    path := cfg.path.map abspath
    is_compressed := cfg.is_compressed.getD true
    samplesheet := cfg.samplesheet.map abspath
    simple_csv := cfg.simple_csv.map abspath
    copy_to_project := cfg.copy_to_project.getD false
    fastq_path := none }

/-- The top level of the loaded configuration document: each key
present or absent as in the parsed YAML mapping. -/
structure ConfigDoc where
  runs : Option (List (String × RunCfg))
  samples : Option (List (String × List (String × String)))
  gex_reference : Option (List (String × String))
  vdj_reference : Option (List (String × String))
  feature_reference : Option (List (String × String))
  uiport : Option Nat
  cellranger : Option String

/-- The error raised by the config loader: a mandatory-key subscript
on the loaded mapping fails with Python KeyError carrying the missing
field name. -/
inductive ConfigError where
  | keyError (field : String)
deriving DecidableEq

/-- The fully populated configuration produced on success. -/
structure ParsedConfig where
  runs : List Run
  samples : List Sample
  gex_reference : List (String × String)
  vdj_reference : List (String × String)
  feature_reference : List (String × String)
  uiport : Nat
  cellranger : String

/-- Embedding of the Sample construction performed by the config
loader: the loader passes each of its three reference maps whole as
the corresponding keyword argument, and Sample.init stores the passed
value unchanged, so every sample field holds the entire dict. -/
def Sample.ofConfig (name : String) (lib_dict : List (String × String))
    (gex vdj feat : List (String × String)) : Sample :=
  { name := name
    gex_reference := some (.dict gex)
    vdj_reference := some (.dict vdj)
    feature_reference := some (.dict feat)
    library_dict := lib_dict
    librariesCache := none
    aggr_path := none }

/-- Embedding of Config.parse_config_file: subscript the runs section
(KeyError when absent), read the three reference maps with empty-dict
defaults, subscript the samples section (KeyError when absent),
construct one Sample per samples entry passing the reference maps
whole, and fill uiport and cellranger with their defaults. -/
def parse_config_file (abspath : String → String) (doc : ConfigDoc) :
    Except ConfigError ParsedConfig :=
  match doc.runs with
  | none => .error (.keyError "runs")
  | some runEntries =>
      let runs := runEntries.map (fun p => Run.ofConfig abspath p.1 p.2)
      let gex := doc.gex_reference.getD []
      let vdj := doc.vdj_reference.getD []
      let feat := doc.feature_reference.getD []
      match doc.samples with
      | none => .error (.keyError "samples")
      | some sampleEntries =>
          .ok { runs := runs
                samples := sampleEntries.map
                  (fun p => Sample.ofConfig p.1 p.2 gex vdj feat)
                gex_reference := gex
                vdj_reference := vdj
                feature_reference := feat
                uiport := doc.uiport.getD 72647
                cellranger := doc.cellranger.getD "cellranger" }

/-! ### Aggregation -/

/-- The sample attributes read by the aggregation manifest builder:
the sample id and the recorded per-sample count output path. -/
structure AggrSample where
  id : String
  count_path : String
deriving DecidableEq

/-- Embedding of make_aggr_csv: the header line, then for each sample
a line joining its id with the molecule file path — the recorded
count path joined with the fixed relative suffix. -/
def make_aggr_csv_lines (samples : List AggrSample) : List String :=
  samples.foldl
    (fun lines s =>
      lines ++ [s.id ++ "," ++ osPathJoin s.count_path "outs/molecule_info.h5"])
    ["library_id,molecule_h5"]

/-- The aggregation manifest text: the lines joined with newlines,
as written to aggr.csv. -/
def make_aggr_csv (samples : List AggrSample) : String :=
  String.intercalate "\n" (make_aggr_csv_lines samples)

/-- Embedding of the command line built by cellranger_aggr: change
into the aggregation directory and invoke the external binary with
the count subcommand, the group as id, the generated manifest, and
the normalization strategy. -/
def cellrangerAggrCommand (cellranger group aggr_csv normalize aggr_dir : String) :
    String :=
  "cd \x27" ++ aggr_dir ++ "\x27 && " ++ cellranger ++ " count --id " ++ group ++
  " --csv \x27" ++ aggr_csv ++ "\x27 --normalize " ++ normalize

/-- The default of the normalize parameter of cellranger_aggr (also
the value main passes explicitly). -/
def aggrNormalizeDefault : String := "mapped"

/-- Embedding of the return value of cellranger_aggr: the group
output path below the aggregation directory. -/
def cellrangerAggrReturnPath (aggr_dir group : String) : String :=
  osPathJoin aggr_dir group

/-- Embedding of the aggregation loop of main: for each configured
(group, member-names) entry in order, invoke the aggregation step and
record the returned group path on every sample whose name is among
the member names. -/
def aggrStage (aggr_dir : String) (samples : List Sample)
    (groups : List (String × List String)) : List Sample :=
  groups.foldl
    (fun ss g =>
      let path := cellrangerAggrReturnPath aggr_dir g.1
      ss.map (fun s => if g.2.contains s.name then { s with aggr_path := some path } else s))
    samples

/-! ### Concrete fixtures -/

/-- An acquisition environment in which path absolutisation is the
identity and no completion marker is found. -/
def plainEnv : AcqEnv :=
  { abspath := fun s => s, markerDir := fun _ => none }

/-- A run with a local uncompressed origin marked copy-to-project. -/
def copyRun : Run :=
  { name := "run1", url := none, path := some "/data/run1",
    is_compressed := false, samplesheet := none,
    simple_csv := some "/data/run1.csv", copy_to_project := true,
    fastq_path := none }

/-- The state of copyRun after its first acquisition below /raw. -/
def copyRunAfter : Run :=
  { copyRun with path := some "/raw/run1" }

/-- A run with a local uncompressed origin and no copy-to-project. -/
def plainRun : Run :=
  { name := "run2", url := none, path := some "/data/run2",
    is_compressed := false, samplesheet := none,
    simple_csv := some "/data/run2.csv", copy_to_project := false,
    fastq_path := none }

/-- A configuration document with reference maps holding only the
default entry and one sample with no explicit override. -/
def defaultOnlyDoc : ConfigDoc :=
  { runs := some []
    samples := some [("s1", [("Gene Expression", "lib1")])]
    gex_reference := some [("default", "refA")]
    vdj_reference := some [("default", "refV")]
    feature_reference := some [("default", "refF")]
    uiport := none
    cellranger := none }

/-- A configuration document lacking the runs section. -/
def noRunsDoc : ConfigDoc :=
  { runs := none
    samples := some []
    gex_reference := none
    vdj_reference := none
    feature_reference := none
    uiport := none
    cellranger := none }

/-- A configuration document lacking the samples section. -/
def noSamplesDoc : ConfigDoc :=
  { runs := some []
    samples := none
    gex_reference := none
    vdj_reference := none
    feature_reference := none
    uiport := none
    cellranger := none }

/-- A sample record with only a name, as used by identity and
aggregation fixtures. -/
def namedSample (n : String) : Sample :=
  { name := n, gex_reference := none, vdj_reference := none,
    feature_reference := none, library_dict := [],
    librariesCache := none, aggr_path := none }

/-- Two distinct sample objects sharing one and the same name. -/
def sampleObjA : SampleObj := { oid := 1, sample := namedSample "s1" }

/-- The second of the two distinct sample objects named s1. -/
def sampleObjB : SampleObj := { oid := 2, sample := namedSample "s1" }

/-! ### Helper lemmas -/

/-- Folding string concatenation from an accumulator equals the
accumulator followed by the concatenation of the mapped pieces. -/
theorem foldl_append_strConcat {α : Type} (f : α → String) :
    ∀ (l : List α) (init : String),
      l.foldl (fun acc x => acc ++ f x) init = init ++ strConcat (l.map f) := by
  intro l
  induction l with
  | nil => intro init; simp [strConcat]
  | cons x xs ih =>
      intro init
      simp only [List.foldl_cons, List.map_cons, strConcat, List.foldr_cons]
      rw [ih]
      simp [strConcat, String.append_assoc]

/-- Folding singleton-append from an accumulator equals the
accumulator followed by the mapped list. -/
theorem foldl_append_singleton {α β : Type} (f : α → β) :
    ∀ (l : List α) (init : List β),
      l.foldl (fun acc x => acc ++ [f x]) init = init ++ l.map f := by
  intro l
  induction l with
  | nil => intro init; simp
  | cons x xs ih => intro init; simp [ih]

/-- The nested manifest row loop equals the concatenation of the
per-library row blocks. -/
theorem foldl_rows_eq :
    ∀ (libs : List Library) (init : String),
      libs.foldl
        (fun cfg l =>
          (Library.fastq_paths l).foldl
            (fun cfg2 fq => cfg2 ++ (l.name ++ "," ++ fq ++ "," ++ l.type ++ "\n"))
            cfg)
        init
      = init ++ strConcat (libs.map Library.specRows) := by
  intro libs
  induction libs with
  | nil => intro init; simp [strConcat]
  | cons l ls ih =>
      intro init
      simp only [List.foldl_cons, List.map_cons, strConcat, List.foldr_cons]
      rw [foldl_append_strConcat, ih]
      simp [Library.specRows, strConcat, String.append_assoc]

/-- The libraries property returns the effective library list. -/
theorem librariesProp_fst (s : Sample) :
    (Sample.librariesProp s).1 = Sample.effLibraries s := by
  cases h : s.librariesCache <;>
    simp [Sample.librariesProp, Sample.effLibraries, h]

/-- The libraries property leaves the sample unchanged except for
filling the library cache with the effective library list. -/
theorem librariesProp_snd (s : Sample) :
    (Sample.librariesProp s).2 =
      { s with librariesCache := some (Sample.effLibraries s) } := by
  obtain ⟨n, g, v, f, ld, lc, ap⟩ := s
  cases lc <;> simp [Sample.librariesProp, Sample.effLibraries]

/-- The manifest builder computes exactly the spec-side manifest. -/
theorem build_config_csv_eq_spec (s : Sample) :
    (Sample.build_config_csv s).1 = manifestSpec s := by
  simp only [Sample.build_config_csv, manifestSpec, specRefSection]
  rw [foldl_rows_eq, librariesProp_fst]
  cases s.gex_reference <;> cases s.vdj_reference <;> cases s.feature_reference <;>
    simp [String.append_assoc]

/-- A suffix shorter than another suffix of the same list would be a
suffix of the latter; contrapositive form used for the dispatch. -/
theorem not_suffix_of_suffix {u v l : List Char}
    (hu : u <:+ l) (hlen : u.length ≤ v.length) (huv : ¬ u <:+ v) :
    ¬ v <:+ l :=
  fun hv => huv (List.suffix_of_suffix_length_le hu hv hlen)

/-! ### Claim theorems -/

/-- Claim C1 (code bug): the Library-Fastq Binder is claimed to append
the resolved fastq path of each matching run to the library's
accumulated list, idempotently.  On the code, any invocation of
Library.add_fastq_path raises AttributeError, because the method body
appends to the attribute fastq_path which the Library class never
defines; this theorem evaluates the embedded method at the failing
input. -/
theorem add_fastq_path_raises_attribute_error :
    Library.add_fastq_path id
        { name := "lib1", type := "Gene Expression", fastqPathsCache := none }
        "/proj/run_data/run1"
      = .error (.attributeError "fastq_path") := by
  rfl

/-- Claim C2 (code bug): a sample with no explicit entry in a
reference map is claimed to hold exactly the map's default value.  On
the code, Config passes each reference map whole to Sample.init,
which stores it unchanged: at the concrete config whose
gene-expression map is only a default entry refA, the parsed sample
holds the entire dict, which is not the string refA. -/
theorem sample_reference_holds_whole_map :
    ((parse_config_file id defaultOnlyDoc).map
        (fun cfg => cfg.samples.map Sample.gex_reference))
      = .ok [some (PyVal.dict [("default", "refA")])]
    ∧ some (PyVal.dict [("default", "refA")]) ≠ some (PyVal.str "refA") := by
  exact ⟨rfl, by decide⟩

/-- Claim C3 counterexample: Run.get is not idempotent.  A run with a
local uncompressed origin and copy-to-project set resolves to a
local uncompressed directory on the first invocation, yet the second
invocation re-triggers the recursive copy (a nonempty action list),
because the method never clears the configured flags. -/
theorem run_get_retriggers_copy :
    Run.get plainEnv copyRun "/raw"
        = .ok (copyRunAfter, [AcqAction.copy "/data/run1" "/raw/run1"])
    ∧ Run.get plainEnv copyRunAfter "/raw"
        = .ok (copyRunAfter, [AcqAction.copy "/raw/run1" "/raw/run1"])
    ∧ [AcqAction.copy "/raw/run1" "/raw/run1"] ≠ ([] : List AcqAction) := by
  refine ⟨rfl, rfl, by decide⟩

/-- Claim C3 as amended: Run.get triggers acquisition actions purely
from the configured flags, which it never clears, so idempotency
holds only when no flag triggers an action: for every run with no
url, not compressed, and with no eligible copy (copy-to-project
unset or no local path), Run.get performs no copy, download or
decompress action and returns the run unchanged, so a repeated
invocation behaves identically.  (For a run with a local
uncompressed origin and copy-to-project set, the counterexample
above shows a second invocation re-triggers the copy.) -/
theorem run_get_noop_on_plain_local :
    ∀ (env : AcqEnv) (r : Run) (raw_dir : String),
      r.url = none → r.is_compressed = false →
      (r.copy_to_project = false ∨ r.path = none) →
      Run.get env r raw_dir = .ok (r, []) := by
  intro env r raw_dir hu hc hcp
  rcases hcp with h | h <;> simp [Run.get, hu, hc, h]

/-- Witness for the amended C3 theorem at a concrete plain-local
run. -/
theorem run_get_noop_on_plain_local_witness :
    Run.get plainEnv plainRun "/raw" = .ok (plainRun, []) :=
  run_get_noop_on_plain_local plainEnv plainRun "/raw" rfl rfl (Or.inl rfl)

/-- Claim C4: for every sample, the generated manifest consists, in
this fixed order, of a gene-expression section with its reference
exactly when one is set, a vdj section exactly when set, a feature
section exactly when set, and a final libraries section whose header
row is fastq_id,fastqs,feature_types followed by exactly one data row
(library-name, read-file-path, library-type) per (library,
accumulated fastq path) pair — i.e. the built text equals the
spec-side manifest. -/
theorem manifest_matches_spec (s : Sample) :
    (Sample.build_config_csv s).1 = manifestSpec s :=
  build_config_csv_eq_spec s

/-- Claim C5: decompression dispatches on the archive extension —
.tar.gz and .tgz select gzip-tar extraction, .tar selects tar
extraction, .zip selects zip extraction — and any other name yields
the fatal unsupported-format error with no extraction command
selected. -/
theorem decompress_dispatch (source destination : String) :
    (pyEndsWith source ".tar.gz" ∨ pyEndsWith source ".tgz" →
      selectExtraction source destination = .ok (.tarGz source destination))
    ∧ (pyEndsWith source ".tar" →
      selectExtraction source destination = .ok (.tarPlain source destination))
    ∧ (pyEndsWith source ".zip" →
      selectExtraction source destination = .ok (.unzip source destination))
    ∧ (¬ pyEndsWith source ".tar.gz" → ¬ pyEndsWith source ".tgz" →
       ¬ pyEndsWith source ".tar" → ¬ pyEndsWith source ".zip" →
      selectExtraction source destination = .error (unsupportedMsg source)) := by
  refine ⟨?_, ?_, ?_, ?_⟩
  · intro h
    simp only [selectExtraction, if_pos h]
  · intro h
    have h1 : ¬ (pyEndsWith source ".tar.gz" ∨ pyEndsWith source ".tgz") := by
      rintro (hg | hg)
      · exact not_suffix_of_suffix h (by decide) (by decide) hg
      · exact not_suffix_of_suffix h (by decide) (by decide) hg
    simp only [selectExtraction, if_neg h1, if_pos h]
  · intro h
    have h1 : ¬ (pyEndsWith source ".tar.gz" ∨ pyEndsWith source ".tgz") := by
      rintro (hg | hg)
      · exact not_suffix_of_suffix h (by decide) (by decide) hg
      · exact not_suffix_of_suffix h (by decide) (by decide) hg
    have h2 : ¬ pyEndsWith source ".tar" := by
      intro ht
      exact not_suffix_of_suffix h (by decide) (by decide) ht
    simp only [selectExtraction, if_neg h1, if_neg h2, if_pos h]
  · intro hgz htgz htar hzip
    have h1 : ¬ (pyEndsWith source ".tar.gz" ∨ pyEndsWith source ".tgz") := by
      rintro (hg | hg)
      · exact hgz hg
      · exact htgz hg
    simp only [selectExtraction, if_neg h1, if_neg htar, if_neg hzip]

/-- Witness for the C5 theorem at concrete archive names of each
kind. -/
theorem decompress_dispatch_witness :
    selectExtraction "/r/a.tgz" "/d" = .ok (.tarGz "/r/a.tgz" "/d")
    ∧ selectExtraction "/r/a.tar" "/d" = .ok (.tarPlain "/r/a.tar" "/d")
    ∧ selectExtraction "/r/a.zip" "/d" = .ok (.unzip "/r/a.zip" "/d")
    ∧ selectExtraction "/r/a.rar" "/d" = .error (unsupportedMsg "/r/a.rar") :=
  ⟨(decompress_dispatch "/r/a.tgz" "/d").1 (Or.inr (by decide)),
   (decompress_dispatch "/r/a.tar" "/d").2.1 (by decide),
   (decompress_dispatch "/r/a.zip" "/d").2.2.1 (by decide),
   (decompress_dispatch "/r/a.rar" "/d").2.2.2
     (by decide) (by decide) (by decide) (by decide)⟩

/-- Claim C6 (code bug): the aggregation stage is claimed to invoke
the external binary's aggregation mode with default normalization
"mapped" and to record the group output path on every member sample.
The normalization default and the path recording hold, but the
command the code builds invokes the count subcommand, not the
aggregation mode: this theorem evaluates the built command and the
recording at the failing input. -/
theorem aggr_builds_count_command :
    cellrangerAggrCommand "cellranger" "grp1" "/proj/aggr/aggr.csv"
        aggrNormalizeDefault "/proj/aggr"
      = "cd \x27/proj/aggr\x27 && cellranger count --id grp1 --csv " ++
        "\x27/proj/aggr/aggr.csv\x27 --normalize mapped"
    ∧ aggrNormalizeDefault = "mapped"
    ∧ (aggrStage "/proj/aggr" [namedSample "a", namedSample "b"]
          [("grp1", ["a", "b"])]).map Sample.aggr_path
        = [some "/proj/aggr/grp1", some "/proj/aggr/grp1"] := by
  refine ⟨rfl, rfl, rfl⟩

/-- Claim C7: the aggregation manifest consists of the header row
library_id,molecule_h5 followed by exactly one data row per sample,
each row pairing the sample id with its recorded count output path
joined with the fixed relative suffix outs/molecule_info.h5. -/
theorem aggr_csv_header_and_rows (samples : List AggrSample) :
    make_aggr_csv_lines samples
      = "library_id,molecule_h5" ::
          samples.map
            (fun s => s.id ++ "," ++ osPathJoin s.count_path "outs/molecule_info.h5")
    ∧ (make_aggr_csv_lines samples).length = samples.length + 1 := by
  have h := foldl_append_singleton
    (fun s : AggrSample => s.id ++ "," ++ osPathJoin s.count_path "outs/molecule_info.h5")
    samples ["library_id,molecule_h5"]
  constructor
  · simpa [make_aggr_csv_lines] using h
  · rw [show make_aggr_csv_lines samples = _ from h]
    simp

/-- Claim C8: the config loader rejects a document lacking the runs
section with the error naming runs, rejects one lacking the samples
section with the error naming samples, and on a document with both
sections produces the fully populated configuration (runs and samples
mapped entrywise, uiport and cellranger defaulted). -/
theorem config_loader_rejects_or_populates (abspath : String → String)
    (doc : ConfigDoc) :
    (doc.runs = none →
      parse_config_file abspath doc = .error (.keyError "runs"))
    ∧ (∀ rs, doc.runs = some rs → doc.samples = none →
      parse_config_file abspath doc = .error (.keyError "samples"))
    ∧ (∀ rs ss, doc.runs = some rs → doc.samples = some ss →
      parse_config_file abspath doc = .ok
        { runs := rs.map (fun p => Run.ofConfig abspath p.1 p.2)
          samples := ss.map (fun p => Sample.ofConfig p.1 p.2
            (doc.gex_reference.getD []) (doc.vdj_reference.getD [])
            (doc.feature_reference.getD []))
          gex_reference := doc.gex_reference.getD []
          vdj_reference := doc.vdj_reference.getD []
          feature_reference := doc.feature_reference.getD []
          uiport := doc.uiport.getD 72647
          cellranger := doc.cellranger.getD "cellranger" }) := by
  refine ⟨?_, ?_, ?_⟩
  · intro h
    simp [parse_config_file, h]
  · intro rs h1 h2
    simp [parse_config_file, h1, h2]
  · intro rs ss h1 h2
    simp [parse_config_file, h1, h2]

/-- Witness for the C8 theorem at concrete documents missing runs,
missing samples, and having both. -/
theorem config_loader_rejects_or_populates_witness :
    parse_config_file id noRunsDoc = .error (.keyError "runs")
    ∧ parse_config_file id noSamplesDoc = .error (.keyError "samples")
    ∧ parse_config_file id defaultOnlyDoc = .ok
        { runs := []
          samples := [Sample.ofConfig "s1" [("Gene Expression", "lib1")]
            [("default", "refA")] [("default", "refV")] [("default", "refF")]]
          gex_reference := [("default", "refA")]
          vdj_reference := [("default", "refV")]
          feature_reference := [("default", "refF")]
          uiport := 72647
          cellranger := "cellranger" } :=
  ⟨(config_loader_rejects_or_populates id noRunsDoc).1 rfl,
   (config_loader_rejects_or_populates id noSamplesDoc).2.1 [] rfl rfl,
   (config_loader_rejects_or_populates id defaultOnlyDoc).2.2 []
     [("s1", [("Gene Expression", "lib1")])] rfl rfl⟩

/-- Claim C9 counterexample: sample equality is not determined by
name.  Two distinct Sample objects sharing the name s1 have equal
names and equal hashes, yet compare unequal, because the class
defines hashing by name but no equality method, so equality falls
back to object identity. -/
theorem sample_name_equality_insufficient :
    sampleObjA.sample.name = sampleObjB.sample.name
    ∧ sampleObjHash sampleObjA = sampleObjHash sampleObjB
    ∧ sampleObjEq sampleObjA sampleObjB = false :=
  ⟨rfl, rfl, rfl⟩

/-- Claim C9 as amended: sample hashing is by name alone — equal
names give equal hashes — but comparison is object identity: two
Sample objects compare equal exactly when they are the same object,
so distinct same-named samples are not the same entity. -/
theorem sample_hash_by_name_equality_by_identity (a b : SampleObj) :
    (a.sample.name = b.sample.name → sampleObjHash a = sampleObjHash b)
    ∧ (sampleObjEq a b = true ↔ a.oid = b.oid) := by
  constructor
  · intro h
    simp [sampleObjHash, h]
  · simp [sampleObjEq]

/-- Witness for the amended C9 theorem at the two concrete
same-named sample objects. -/
theorem sample_hash_by_name_equality_by_identity_witness :
    sampleObjHash sampleObjA = sampleObjHash sampleObjB
    ∧ (sampleObjEq sampleObjA sampleObjB = true ↔ sampleObjA.oid = sampleObjB.oid) :=
  ⟨(sample_hash_by_name_equality_by_identity sampleObjA sampleObjB).1 rfl,
   (sample_hash_by_name_equality_by_identity sampleObjA sampleObjB).2⟩

/-- Claim C10: manifest generation is deterministic — building the
manifest a second time from the state left by the first build (whose
only effect is filling the library cache with the very libraries the
first build serialised) yields the identical text. -/
theorem manifest_deterministic (s : Sample) :
    (Sample.build_config_csv ((Sample.build_config_csv s).2)).1
      = (Sample.build_config_csv s).1 := by
  have hsnd : (Sample.build_config_csv s).2 = (Sample.librariesProp s).2 := rfl
  rw [build_config_csv_eq_spec, build_config_csv_eq_spec, hsnd, librariesProp_snd]
  simp [manifestSpec, Sample.effLibraries]

end BatchCellranger
